import Mathlib

/-!
Shallow embedding of `lib/eventlog.py` (class `EventLogAPI`) of the
cli-eaa repository, together with theorems about its log-retrieval
state machine: response normalisation (`get_logs`), time-window
computation (`date_boundaries`), cursor pagination, the tail-mode
stop-event wait, output-file handling and the sink lifecycle of
`fetch_logs`.

Conventions of the embedding:
* JSON values are modelled by the inductive type `J`; Python `None`
  and JSON `null` are identified as `J.null`; numbers are modelled as
  integers (every numeric field exercised here is integral).
* Python expressions that may raise are modelled in `Except Unit`;
  an `Except.error` corresponds to a raised exception that an
  enclosing `try`/`except` of the source catches.
* `datetime.date.fromtimestamp` is modelled at UTC (the source uses
  the process-local timezone); it raises outside Python's year range
  1..9999, modelled by an explicit bound on the second count.
-/

/-- A parsed JSON value, as returned by `resp.json()`. -/
inductive J where
  | null : J
  | bool (b : Bool) : J
  | str (s : String) : J
  | num (n : Int) : J
  | arr (elems : List J) : J
  | obj (fields : List (String × J)) : J

/-- First-match association lookup, modelling Python `dict` access on a
JSON object (keys are assumed distinct, as produced by a JSON parser). -/
def jLookup (kvs : List (String × J)) (k : String) : Option J :=
  (kvs.find? (fun kv => kv.1 == k)).map (·.2)

/-- Python membership test `needle in j`: on a dict it tests keys, on a
list it tests elements, on a string it is a substring test; on any
other value Python raises `TypeError` (modelled as `Except.error`). -/
def pyContains (needle : String) : J → Except Unit Bool
  | J.obj kvs => .ok (kvs.any (fun kv => kv.1 == needle))
  | J.arr xs => .ok (xs.any (fun x => match x with | J.str s => s == needle | _ => false))
  | J.str s => .ok (decide ((s.splitOn needle).length ≥ 2))
  | _ => .error ()

/-- Python `j.get(k)`: only dicts have `.get`; on any other value an
`AttributeError` is raised.  An absent key yields Python `None`
(identified with `J.null`). -/
def pyGet (j : J) (k : String) : Except Unit J :=
  match j with
  | J.obj kvs => .ok ((jLookup kvs k).getD J.null)
  | _ => .error ()

/-- Python `j[i]` for a nonnegative integer literal index `i`:
an in-range list index or string index succeeds; everything else
raises (`IndexError`, `KeyError` on a string-keyed dict, `TypeError`
otherwise). -/
def pyIndexNat (j : J) (i : Nat) : Except Unit J :=
  match j with
  | J.arr xs =>
      match xs.get? i with
      | some x => .ok x
      | none => .error ()
  | J.str s =>
      match s.toList.get? i with
      | some c => .ok (J.str (String.singleton c))
      | none => .error ()
  | _ => .error ()

/-- Python iteration `for x in j` as used on `msg.get('data')`:
lists yield their elements, dicts their keys, strings their
characters; `None`, booleans and numbers raise `TypeError`. -/
def pyIter (j : J) : Except Unit (List J) :=
  match j with
  | J.arr xs => .ok xs
  | J.obj kvs => .ok (kvs.map (fun kv => J.str kv.1))
  | J.str s => .ok (s.toList.map (fun c => J.str (String.singleton c)))
  | _ => .error ()

/-- A Python value stored in a variable used as an optional scroll id:
`None` (absent key, or JSON `null`) means no cursor. -/
def pyOptVal : Option J → Option J
  | none => none
  | some J.null => none
  | some v => some v

mutual

/-- Python `repr` of a JSON-derived value (used by `str` on
containers). -/
def pyRepr : J → String
  | J.null => "None"
  | J.bool b => if b then "True" else "False"
  | J.str s => "\x27" ++ s ++ "\x27"
  | J.num n => toString n
  | J.arr xs => "[" ++ pyReprList xs ++ "]"
  | J.obj kvs => "\x7b" ++ pyReprFields kvs ++ "\x7d"

/-- Comma-separated `repr`s of the elements of a Python list. -/
def pyReprList : List J → String
  | [] => ""
  | [x] => pyRepr x
  | x :: y :: rest => pyRepr x ++ ", " ++ pyReprList (y :: rest)

/-- Comma-separated `'key': repr` pairs of a Python dict. -/
def pyReprFields : List (String × J) → String
  | [] => ""
  | [(k, v)] => "\x27" ++ k ++ "\x27: " ++ pyRepr v
  | (k, v) :: kv :: rest =>
      "\x27" ++ k ++ "\x27: " ++ pyRepr v ++ ", " ++ pyReprFields (kv :: rest)

end

/-- Python `str` applied to a JSON-derived value (used by
`"{},{}".format` and `str(scroll_id)`): like `repr` except that a
top-level string is rendered without quotes. -/
def pyStrOf : J → String
  | J.str s => s
  | v => pyRepr v

/-- Python `str.isdigit` (restricted to ASCII digits, which is all the
timestamp keys use). -/
def pyIsDigit (s : String) : Bool :=
  (s.length != 0) && s.toList.all Char.isDigit

/-- Decimal value of a digit list (most significant first). -/
def digitsToNat : List Char → Nat → Nat
  | [], acc => acc
  | c :: cs, acc => digitsToNat cs (acc * 10 + (c.toNat - '0'.toNat))

/-- Python `int(s)` on a string of ASCII digits. -/
def strToNat (s : String) : Nat :=
  digitsToNat s.toList 0

/-- Civil date `(year, month, day)` of a day count relative to
1970-01-01 in the proleptic Gregorian calendar. -/
def civilFromDays (z0 : Int) : Int × Nat × Nat :=
  let z := z0 + 719468
  let era : Int := Int.fdiv z 146097
  let doe : Nat := (z - era * 146097).toNat
  let yoe : Nat := (doe - doe / 1460 + doe / 36524 - doe / 146096) / 365
  let y : Int := (yoe : Int) + era * 400
  let doy : Nat := doe - (365 * yoe + yoe / 4 - yoe / 100)
  let mp : Nat := (5 * doy + 2) / 153
  let d : Nat := doy - (153 * mp + 2) / 5 + 1
  let m : Nat := if mp < 10 then mp + 3 else mp - 9
  ((if m ≤ 2 then y + 1 else y), m, d)

/-- Zero-pad a month or day number to two digits. -/
def pad2 (n : Nat) : String :=
  if n < 10 then "0" ++ toString n else toString n

/-- Zero-pad a year to four digits (as `date.isoformat` does). -/
def pad4 (y : Int) : String :=
  if y < 0 then toString y
  else
    let s := toString y.toNat
    String.mk (List.replicate (4 - s.length) '0') ++ s

/-- `date.isoformat()` of the civil date of day `z` (days since the
epoch). -/
def isoDateOfDay (z : Int) : String :=
  match civilFromDays z with
  | (y, m, d) => pad4 y ++ "-" ++ pad2 m ++ "-" ++ pad2 d

/-- Seconds range accepted by `datetime.date.fromtimestamp` (years
1..9999, modelled at UTC); outside of it the call raises and the
record is skipped by the enclosing `except`. -/
def fromtimestampOK (sec : Int) : Bool :=
  decide (-62135596800 ≤ sec ∧ sec ≤ 253402300799)

/-- The two log categories, `EventLogAPI.EventType` (`"access"` /
`"admin"`). -/
inductive EventType where
  | userAccess
  | admin
  deriving DecidableEq

/-- Per-call observable effect of `EventLogAPI.get_logs`: the returned
scroll id, the lines written to the output, and the increments this
one call applies to the process-wide counters `error_count` and
`line_count`. -/
structure GetLogsOut where
  scroll_id : Option J
  written : List String
  error_count : Nat
  line_count : Nat

/-- One iteration of the access-log record loop (source lines
105-120).  Any exception inside the per-record `try` is caught, the
record is skipped and processing continues with no state change; a
non-digit key is skipped silently (`continue`).  The debug statement
`type(response['flog'])` runs before the `isinstance` guard, so a
record without a `flog` payload raises there and is skipped. -/
def uaRecord (st : List String × Nat) (kv : String × J) : List String × Nat :=
  if pyIsDigit kv.1 = false then st
  else
    match kv.2 with
    | J.obj rkvs =>
        match jLookup rkvs "flog" with
        | some (J.str fs) =>
            let ms := strToNat kv.1
            if ms / 1000 ≤ 253402300799 then
              (st.1 ++ [isoDateOfDay (Int.ofNat (ms / 86400000)) ++ " " ++ fs ++ "\n"],
               st.2 + 1)
            else st
        | some _ => st
        | none => st
    | _ => st

/-- The extraction `msg = resj.get('message')[0][1]` together with the
subsequent uses of `msg` that require it to be a mapping
(`msg.get('scroll_id')`, `six.iteritems(msg)`; source lines 92-93,
105). -/
def uaMsg (resj : J) : Except Unit (List (String × J)) := do
  let mv ← pyGet resj "message"
  let m0 ← pyIndexNat mv 0
  let m01 ← pyIndexNat m0 1
  match m01 with
  | J.obj kvs => pure kvs
  | _ => .error ()

/-- The `USER_ACCESS` branch of `get_logs` (source lines 91-120),
entered when the response has a top-level `message`.  An exception
before the record loop is caught by the outer handler with no effects
performed and `scroll_id` still `None`. -/
def uaBranch (resj : J) : GetLogsOut :=
  match uaMsg resj with
  | .error _ => ⟨none, [], 0, 0⟩
  | .ok msg =>
      let sid := pyOptVal (jLookup msg "scroll_id")
      let st := msg.foldl uaRecord ([], 0)
      ⟨sid, st.1, 0, st.2⟩

/-- Scroll-id extraction of the `ADMIN` branch (source lines 96-97):
`if 'scroll_id' in msg.get('metadata'): scroll_id =
msg.get('metadata').get('scroll_id')`. -/
def adminScroll (msg : J) : Except Unit (Option J) := do
  let md ← pyGet msg "metadata"
  let b ← pyContains "scroll_id" md
  if b then
    match md with
    | J.obj kvs => pure (pyOptVal (jLookup kvs "scroll_id"))
    | _ => .error ()
  else
    pure none

/-- Emission of one admin line (source lines 124-128) once
`int(item.get('ts')/1000)` produced the second count `sec`:
`"{},{}".format` renders a missing `splunk_line` as `"None"`. -/
def adminEmit (st : List String × Nat) (kvs : List (String × J)) (sec : Int) :
    List String × Nat :=
  if fromtimestampOK sec then
    let sl := match jLookup kvs "splunk_line" with
              | none => "None"
              | some v => pyStrOf v
    (st.1 ++ [isoDateOfDay (Int.fdiv sec 86400) ++ "," ++ sl ++ "\n"], st.2 + 1)
  else st

/-- One iteration of the admin record loop (source lines 122-131).
A non-dict element, a missing `ts` (`None/1000` is a `TypeError`), or
a non-numeric `ts` raises inside the per-record `try` and the record
is skipped.  `int(True/1000)` and `int(False/1000)` are both `0`. -/
def adminRecord (st : List String × Nat) (item : J) : List String × Nat :=
  match item with
  | J.obj kvs =>
      match jLookup kvs "ts" with
      | some (J.num n) => adminEmit st kvs (Int.tdiv n 1000)
      | some (J.bool _) => adminEmit st kvs 0
      | _ => st
  | _ => st

/-- The `ADMIN` branch of `get_logs` (source lines 94-131).  Note that
an exception raised after the scroll id was extracted (for example
`for item in msg.get('data')` when `data` is missing or not iterable)
is caught by the outer handler, which still returns the extracted
scroll id. -/
def adminBranch (resj : J) : GetLogsOut :=
  match pyGet resj "message" with
  | .error _ => ⟨none, [], 0, 0⟩
  | .ok msg =>
      match adminScroll msg with
      | .error _ => ⟨none, [], 0, 0⟩
      | .ok sid =>
          match pyGet msg "data" with
          | .error _ => ⟨sid, [], 0, 0⟩
          | .ok dataV =>
              match pyIter dataV with
              | .error _ => ⟨sid, [], 0, 0⟩
              | .ok items =>
                  let st := items.foldl adminRecord ([], 0)
                  ⟨sid, st.1, 0, st.2⟩

/-- Observable behaviour of `EventLogAPI.get_logs` (source lines
70-144) on one response, given the HTTP status and the parsed JSON
body.  A non-success status returns `None` immediately without
touching the counters; a body with no top-level `message` increments
`error_count` by one; otherwise the category branch normalises the
page.  Any exception inside the outer `try` is caught, keeping the
effects performed so far and returning the current `scroll_id`. -/
def get_logs (logtype : EventType) (status : Nat) (resj : J) : GetLogsOut :=
  if status = 200 then
    match pyContains "message" resj with
    | .error _ => ⟨none, [], 0, 0⟩
    | .ok true =>
        match logtype with
        | EventType.userAccess => uaBranch resj
        | EventType.admin => adminBranch resj
    | .ok false => ⟨none, [], 1, 0⟩
  else ⟨none, [], 0, 0⟩

/-- `EventLogAPI.PULL_INTERVAL_SEC`. -/
def PULL_INTERVAL_SEC : Nat := 15

/-- `EventLogAPI.COLLECTION_DELAY_MINUTES`. -/
def COLLECTION_DELAY_MINUTES : Nat := 1

/-- Python truthiness of an optional integer configuration value
(`config.start` / `config.end`): `None` and `0` are both falsy. -/
def pyTruthy : Option Int → Bool
  | none => false
  | some n => n != 0

/-- `EventLogAPI.date_boundaries` (source lines 146-156): returns
`(ets, sts)` in epoch milliseconds, given the current whole-second
clock value `time.mktime(time.localtime())` and the configuration
values `config.tail`, `config.start`, `config.end`. -/
def date_boundaries (nowSec : Int) (tail : Bool) (cfgStart cfgEnd : Option Int) :
    Int × Int :=
  let ets0 : Int := nowSec * 1000 - (COLLECTION_DELAY_MINUTES : Int) * 60 * 1000
  let ets := if (!tail && pyTruthy cfgEnd) = true then cfgEnd.getD 0 * 1000 else ets0
  let sts0 : Int := ets - (PULL_INTERVAL_SEC : Int) * 1000
  let sts := if (!tail && pyTruthy cfgStart) = true then cfgStart.getD 0 * 1000 else sts0
  (ets, sts)

/-- The request payload built for one page (source lines 188-198);
`scroll_id` is added only when a cursor is live, via `str(scroll_id)`. -/
def buildDrpc (sts ets : Int) (scroll : Option J) : List (String × String) :=
  let base := [("sts", toString sts), ("ets", toString ets),
               ("metrics", "logs"), ("es_fields", "flog"), ("limit", "1000"),
               ("sub_metrics", "scroll"), ("source", "akamai-cli/eaa")]
  match scroll with
  | none => base
  | some sid => base ++ [("scroll_id", pyStrOf sid)]

/-- The per-window pagination loop of `fetch_logs` (source lines
186-202): issue a request carrying the current cursor, hand the
backend's `(status, body)` answer for it to `get_logs`, stop when no
cursor is returned, otherwise continue with the returned cursor.  The
result is the list of request payloads issued.  (When the supplied
backend answer list runs out while a cursor is still live the loop
would keep issuing requests; the model returns the requests issued so
far.) -/
def scrollWindow (logtype : EventType) (sts ets : Int) :
    Option J → List (Nat × J) → List (List (String × String))
  | cur, [] => [buildDrpc sts ets cur]
  | cur, (status, body) :: rest =>
      match (get_logs logtype status body).scroll_id with
      | none => [buildDrpc sts ets cur]
      | some c => buildDrpc sts ets cur :: scrollWindow logtype sts ets (some c) rest

/-- Return time of `stop_event.wait(timeout)` (source line 216) for a
stop flag raised at absolute time `setAt` (`none`: never raised),
entering the wait at time `enter`: a flag already set on entry returns
immediately, a flag set during the wait wakes it at once, otherwise
the full timeout elapses. -/
def eventWaitReturn (setAt : Option Nat) (enter timeout : Nat) : Nat :=
  match setAt with
  | none => enter + timeout
  | some t => if t ≤ enter then enter else min t (enter + timeout)

/-- `stop_event.is_set()` evaluated at absolute time `now`. -/
def eventIsSet (setAt : Option Nat) (now : Nat) : Bool :=
  match setAt with
  | none => false
  | some t => decide (t ≤ now)

/-- The tail-mode inter-cycle guard (source lines 213-218): wait on
the stop event, then exit the loop iff `is_set()` holds at the check
that follows the wait; only if it does not, a new fetch cycle starts. -/
def tailCycleExits (setAt : Option Nat) (enter timeout : Nat) : Bool :=
  eventIsSet setAt (eventWaitReturn setAt enter timeout)

/-- A regular file as `fetch_logs` sees it: its content and the stream
position `tell()`, counted in UTF-8 bytes. -/
structure PyFile where
  content : String
  pos : Nat

/-- `open(path, 'w+', encoding='utf-8')` (source line 174): mode `w+`
truncates an existing file (and creates a missing one), leaving an
empty file at position 0. -/
def openWPlus (_existing : Option String) : PyFile :=
  ⟨"", 0⟩

/-- A `write` on the file; the loop only ever writes at the end of the
stream. -/
def fileWrite (f : PyFile) (s : String) : PyFile :=
  ⟨f.content ++ s, f.pos + s.utf8ByteSize⟩

/-- `tell()`. -/
def fileTell (f : PyFile) : Nat := f.pos

/-- Concatenation of all strings written during a run. -/
def concatWrites : List String → String
  | [] => ""
  | w :: ws => w ++ concatWrites ws

/-- A bounded run against a path output, reduced to its file effects
(source lines 171-212): open the path, record `start_position =
out.tell()`, perform the run's writes, and compute the summary byte
count `out.tell() - start_position`. -/
def runOnPath (existing : Option String) (writes : List String) : PyFile × Nat :=
  let f0 := openWPlus existing
  let startPos := fileTell f0
  let f1 := writes.foldl fileWrite f0
  (f1, fileTell f1 - startPos)

/-- Sink lifecycle events of `fetch_logs`. -/
inductive Ev where
  | acquire
  | fetchPage
  | flushOut
  | closeOut
  deriving DecidableEq

/-- Where `self._output` points: a filesystem path, the inherited
`sys.stdout` (also the default when no output is configured), or some
other already-open stream. -/
inductive OutCfg where
  | filePath
  | stdoutStream
  | otherStream
  deriving DecidableEq

/-- Page events of one window (source lines 187-202): `pages`
cursor-carrying responses followed by the final cursor-less one, and
every `get_logs` call is followed by `out.flush()`. -/
def windowTrace : Nat → List Ev
  | 0 => [Ev.fetchPage, Ev.flushOut]
  | n + 1 => Ev.fetchPage :: Ev.flushOut :: windowTrace n

/-- Event trace of a sequence of windows. -/
def windowsTrace : List Nat → List Ev
  | [] => []
  | w :: ws => windowTrace w ++ windowsTrace ws

/-- Event trace of the `try` body of `fetch_logs` (source lines
171-218): the sink is acquired once before the poll loop, then the
windows are drained; a bounded (non-tail) run drains exactly one
window and breaks, a tail run drains windows until the stop flag is
observed. -/
def bodyTrace (tail : Bool) (ws : List Nat) : List Ev :=
  Ev.acquire :: windowsTrace (if tail then ws else ws.take 1)

/-- The `finally` block (source lines 221-224): the sink is closed iff
it was acquired and the configured output is not `sys.stdout`. -/
def finallyTrace (cfg : OutCfg) (acquired : Bool) : List Ev :=
  if acquired && (cfg != OutCfg.stdoutStream) then [Ev.closeOut] else []

/-- Full sink trace of `fetch_logs`; `fault = some n` models an
unhandled exception striking after `n` events of the `try` body, which
the handler turns into a jump to `finally`. -/
def fetchLogsTrace (cfg : OutCfg) (tail : Bool) (ws : List Nat)
    (fault : Option Nat) : List Ev :=
  let body := bodyTrace tail ws
  let actual := match fault with
                | none => body
                | some n => body.take n
  actual ++ finallyTrace cfg (actual.contains Ev.acquire)

/-- Checks that every `fetchPage` event is immediately followed by a
`flushOut` event. -/
def flushAfterFetch : List Ev → Bool
  | [] => true
  | Ev.fetchPage :: rest =>
      match rest with
      | Ev.flushOut :: _ => flushAfterFetch rest
      | _ => false
  | _ :: rest => flushAfterFetch rest

/-- A synthetic `USER_ACCESS` page body whose only payload is the
optional scroll id: the backend shape `{"message": [[_, {...}]]}`. -/
def uaPage : Option String → J
  | some c => J.obj [("message", J.arr [J.arr [J.num 0, J.obj [("scroll_id", J.str c)]]])]
  | none => J.obj [("message", J.arr [J.arr [J.num 0, J.obj []]])]

/-- An access page with one malformed record (no `flog` payload)
followed by one well-formed record. -/
def c1uaBody : J :=
  J.obj [("message", J.arr [J.arr [J.num 0,
    J.obj [("1700000000000", J.obj []),
           ("1700000000001", J.obj [("flog", J.str "B")])]]])]

/-- An admin page with one malformed record (non-numeric `ts`)
followed by one well-formed record. -/
def c1adBody : J :=
  J.obj [("message", J.obj [
    ("metadata", J.obj []),
    ("data", J.arr [J.obj [("ts", J.str "oops")],
                    J.obj [("ts", J.num 1700000000000), ("splunk_line", J.str "B")]])])]

/-- A response whose top-level `message` is itself the timestamp
mapping `{"metadata": {...}, "1700000000000": {"flog": "line-A"}}`
(the shape the spec's test property describes). -/
def c3specBody : J :=
  J.obj [("message", J.obj [("metadata", J.obj []),
                            ("1700000000000", J.obj [("flog", J.str "line-A")])])]

/-- A response carrying the same timestamp mapping at the position the
code actually reads it from, `message[0][1]`. -/
def c3codeBody : J :=
  J.obj [("message", J.arr [J.arr [J.num 0,
    J.obj [("metadata", J.obj []),
           ("1700000000000", J.obj [("flog", J.str "line-A")])]]])]

/-- A non-success HTTP status makes `get_logs` return immediately:
no cursor, no lines, no counter change (source lines 81-83). -/
theorem getLogs_bad_status (lt : EventType) (status : Nat) (resj : J)
    (h : status ≠ 200) : get_logs lt status resj = ⟨none, [], 0, 0⟩ := by
  simp [get_logs, h]

/-- A 200 response whose JSON object body has no `message` key takes
the error branch (source lines 132-136). -/
theorem getLogs_no_message (lt : EventType) (kvs : List (String × J))
    (h : ∀ kv ∈ kvs, kv.1 ≠ "message") :
    get_logs lt 200 (J.obj kvs) = ⟨none, [], 1, 0⟩ := by
  have hany : kvs.any (fun kv => kv.1 == "message") = false := by
    rw [List.any_eq_false]
    intro kv hkv
    simpa using h kv hkv
  simp [get_logs, pyContains, hany]

/-- The access branch never touches `error_count`. -/
theorem uaBranch_error_count (resj : J) : (uaBranch resj).error_count = 0 := by
  unfold uaBranch
  cases uaMsg resj <;> rfl

/-- The admin branch never touches `error_count`. -/
theorem adminBranch_error_count (resj : J) : (adminBranch resj).error_count = 0 := by
  unfold adminBranch
  split
  · rfl
  · split
    · rfl
    · split
      · rfl
      · split
        · rfl
        · rfl

/-- On any page that does have a top-level `message`, `get_logs` never
increments `error_count`, whatever happens at record level. -/
theorem getLogs_message_error_count (lt : EventType) (resj : J)
    (h : pyContains "message" resj = Except.ok true) :
    (get_logs lt 200 resj).error_count = 0 := by
  cases lt with
  | userAccess => simp [get_logs, h, uaBranch_error_count]
  | admin => simp [get_logs, h, adminBranch_error_count]

/-- The pagination loop stops exactly at the first response for which
`get_logs` yields no cursor: with `resps` cursor-carrying responses
before it, exactly `resps.length + 1` requests are issued. -/
theorem scrollWindow_length (lt : EventType) (sts ets : Int) :
    ∀ (resps : List (Nat × J)) (cur : Option J),
      (∀ r ∈ resps, (get_logs lt r.1 r.2).scroll_id ≠ none) →
      ∀ status body rest, (get_logs lt status body).scroll_id = none →
      (scrollWindow lt sts ets cur (resps ++ (status, body) :: rest)).length
        = resps.length + 1 := by
  intro resps
  induction resps with
  | nil =>
      intro cur _ status body rest h
      simp [scrollWindow, h]
  | cons r rs ih =>
      intro cur hall status body rest h
      obtain ⟨st1, b1⟩ := r
      cases hsc : (get_logs lt st1 b1).scroll_id with
      | none =>
          exact absurd hsc (hall (st1, b1) (List.mem_cons_self _ _))
      | some c =>
          simp only [List.cons_append, scrollWindow, hsc, List.length_cons]
          rw [List.append_eq,
            ih (some c) (fun r hr => hall r (List.mem_cons_of_mem _ hr)) status body rest h]

/-- Effect of the run's writes on content and position, for any
starting file. -/
theorem foldl_fileWrite_spec (writes : List String) (f : PyFile) :
    (writes.foldl fileWrite f).content = f.content ++ concatWrites writes ∧
    (writes.foldl fileWrite f).pos = f.pos + (writes.map String.utf8ByteSize).sum := by
  induction writes generalizing f with
  | nil => constructor <;> simp [concatWrites]
  | cons w ws ih =>
      obtain ⟨hc, hp⟩ := ih (fileWrite f w)
      constructor
      · simpa [concatWrites, fileWrite, String.append_assoc] using hc
      · simpa [fileWrite, Nat.add_assoc] using hp

/-- A window trace never acquires nor closes the sink. -/
theorem windowTrace_counts (w : Nat) :
    (windowTrace w).count Ev.acquire = 0 ∧ (windowTrace w).count Ev.closeOut = 0 := by
  induction w with
  | zero => constructor <;> rfl
  | succ n ih =>
      obtain ⟨h1, h2⟩ := ih
      constructor <;> simp [windowTrace, List.count_cons, h1, h2]

/-- Neither does any sequence of window traces. -/
theorem windowsTrace_counts (ws : List Nat) :
    (windowsTrace ws).count Ev.acquire = 0 ∧ (windowsTrace ws).count Ev.closeOut = 0 := by
  induction ws with
  | nil => constructor <;> rfl
  | cons w ws ih =>
      obtain ⟨h1, h2⟩ := ih
      obtain ⟨g1, g2⟩ := windowTrace_counts w
      constructor <;> simp [windowsTrace, List.count_append, h1, h2, g1, g2]

/-- `flushAfterFetch` is preserved when a window trace is prepended. -/
theorem flushAfterFetch_window (w : Nat) (t : List Ev)
    (h : flushAfterFetch t = true) :
    flushAfterFetch (windowTrace w ++ t) = true := by
  induction w with
  | zero => exact h
  | succ n ih => exact ih

/-- `flushAfterFetch` is preserved when window traces are prepended. -/
theorem flushAfterFetch_windows (ws : List Nat) (t : List Ev)
    (h : flushAfterFetch t = true) :
    flushAfterFetch (windowsTrace ws ++ t) = true := by
  induction ws generalizing t with
  | nil => simpa using h
  | cons w ws ih =>
      rw [windowsTrace, List.append_assoc]
      exact flushAfterFetch_window w _ (ih t h)

/-- The `finally` block flushes nothing and fetches nothing. -/
theorem finallyTrace_flushAfterFetch (cfg : OutCfg) (b : Bool) :
    flushAfterFetch (finallyTrace cfg b) = true := by
  unfold finallyTrace
  split <;> rfl

/-- The `finally` block never acquires the sink. -/
theorem finallyTrace_count_acquire (cfg : OutCfg) (b : Bool) :
    (finallyTrace cfg b).count Ev.acquire = 0 := by
  unfold finallyTrace
  split <;> rfl

/-- C1 counterexample.  A page of either category containing one
record with a record-level parse failure (an access record with no
payload field; an admin record with a non-numeric timestamp) leaves
`error_count` at 0 — not incremented by exactly 1 as claimed — while
the remaining well-formed record of the page is still processed. -/
theorem C1_counterexample :
    (get_logs EventType.userAccess 200 c1uaBody).error_count ≠ 1 ∧
    (get_logs EventType.userAccess 200 c1uaBody).written = ["2023-11-14 B\n"] ∧
    (get_logs EventType.admin 200 c1adBody).error_count ≠ 1 ∧
    (get_logs EventType.admin 200 c1adBody).written = ["2023-11-14,B\n"] :=
  ⟨by decide, rfl, by decide, rfl⟩

/-- C1 (amended): for every page of either category, a record-level
parse failure is skipped and processing continues with the remaining
records of the page, but the process-wide error counter is not
incremented: on any page carrying a top-level `message`, `error_count`
is never incremented, and in the concrete mixed pages the good record
that follows the malformed one is still written. -/
theorem C1_record_failures (lt : EventType) (resj : J)
    (h : pyContains "message" resj = Except.ok true) :
    (get_logs lt 200 resj).error_count = 0 ∧
    (get_logs EventType.userAccess 200 c1uaBody).written = ["2023-11-14 B\n"] ∧
    (get_logs EventType.userAccess 200 c1uaBody).line_count = 1 ∧
    (get_logs EventType.admin 200 c1adBody).written = ["2023-11-14,B\n"] ∧
    (get_logs EventType.admin 200 c1adBody).line_count = 1 :=
  ⟨getLogs_message_error_count lt resj h, rfl, rfl, rfl, rfl⟩

/-- C1 witness: the theorem applied to the concrete malformed access
page. -/
theorem C1_witness :
    (get_logs EventType.userAccess 200 c1uaBody).error_count = 0 ∧
    (get_logs EventType.userAccess 200 c1uaBody).written = ["2023-11-14 B\n"] ∧
    (get_logs EventType.userAccess 200 c1uaBody).line_count = 1 ∧
    (get_logs EventType.admin 200 c1adBody).written = ["2023-11-14,B\n"] ∧
    (get_logs EventType.admin 200 c1adBody).line_count = 1 :=
  C1_record_failures EventType.userAccess c1uaBody rfl

/-- C3 counterexample.  On a UserAccess response whose top-level
`message` is itself the mapping `{"metadata": {...}, "1700000000000":
{"flog": "line-A"}}`, the code's `message[0][1]` access raises, so
zero lines are produced — not the one line the claim states.  (No
error is counted, as the claim says.) -/
theorem C3_counterexample :
    (get_logs EventType.userAccess 200 c3specBody).written = [] ∧
    (get_logs EventType.userAccess 200 c3specBody).written.length ≠ 1 ∧
    (get_logs EventType.userAccess 200 c3specBody).error_count = 0 :=
  ⟨rfl, by decide, rfl⟩

/-- C3 (amended): normalizing a UserAccess response whose top-level
`message` is a sequence whose first element's second component is the
mapping `{"metadata": {...}, "1700000000000": {"flog": "line-A"}}`
yields exactly one output line `"<ISO date> line-A\n"` with the date
derived from 1700000000000 ms, and the non-numeric key is skipped
silently without incrementing the error counter. -/
theorem C3_ua_normalization :
    get_logs EventType.userAccess 200 c3codeBody =
      ⟨none, [isoDateOfDay (Int.ofNat (1700000000000 / 86400000)) ++ " " ++ "line-A" ++ "\n"], 0, 1⟩ ∧
    isoDateOfDay (Int.ofNat (1700000000000 / 86400000)) = "2023-11-14" :=
  ⟨rfl, rfl⟩

/-- C4 counterexample.  Two responses whose JSON body lacks a
top-level `message` field and for which `error_count` is not
incremented: a non-success (HTTP 500) response, which returns before
the body is inspected, and a 200 response whose body is the JSON
number 5, for which `'message' in resj` raises `TypeError` and the
outer handler swallows it. -/
theorem C4_counterexample :
    (get_logs EventType.userAccess 500 (J.obj [])).error_count = 0 ∧
    (get_logs EventType.userAccess 500 (J.obj [])).error_count ≠ 1 ∧
    (get_logs EventType.userAccess 200 (J.num 5)).error_count = 0 ∧
    (get_logs EventType.userAccess 200 (J.num 5)).error_count ≠ 1 :=
  ⟨rfl, by decide, rfl, by decide⟩

/-- C4 (amended): for every successful (HTTP 200) response whose JSON
body is an object lacking a top-level `message` key, the fetch
increments the error counter by exactly 1, writes zero output lines,
and returns no cursor, terminating pagination for the current
window. -/
theorem C4_missing_message (lt : EventType) (kvs : List (String × J))
    (h : ∀ kv ∈ kvs, kv.1 ≠ "message") :
    get_logs lt 200 (J.obj kvs) = ⟨none, [], 1, 0⟩ :=
  getLogs_no_message lt kvs h

/-- C4 witness: the theorem applied to a concrete body with a single
non-`message` key. -/
theorem C4_witness :
    get_logs EventType.admin 200 (J.obj [("a", J.null)]) = ⟨none, [], 1, 0⟩ :=
  C4_missing_message EventType.admin [("a", J.null)] (by decide)

/-- C5 counterexample.  In non-tail mode with a supplied end override
of 0 epoch seconds, the override is not used verbatim (which would
give `ets = 0`): the rolling default applies instead; likewise a start
override of 0 is ignored. -/
theorem C5_counterexample :
    (date_boundaries 1700000000 false none (some 0)).1 = 1699999940000 ∧
    (date_boundaries 1700000000 false none (some 0)).1 ≠ 0 * 1000 ∧
    (date_boundaries 1700000000 false (some 0) none).2 ≠ 0 * 1000 :=
  ⟨rfl, by decide, by decide⟩

/-- C5 (amended): for every poll cycle without effective overrides
(tail mode, or absent/zero overrides), the computed window satisfies
`end_ms = floor(now_seconds) * 1000 - 60000` and
`start_ms = end_ms - 15000`; in non-tail mode a supplied nonzero end
or start override (epoch seconds) is used verbatim, converted to
milliseconds. -/
theorem C5_window (now : Int) :
    (∀ s e : Option Int, date_boundaries now true s e
        = (now * 1000 - 60000, now * 1000 - 60000 - 15000)) ∧
    date_boundaries now false none none
        = (now * 1000 - 60000, now * 1000 - 60000 - 15000) ∧
    (∀ e : Int, e ≠ 0 →
        date_boundaries now false none (some e) = (e * 1000, e * 1000 - 15000)) ∧
    (∀ s : Int, s ≠ 0 → ∀ e : Option Int,
        (date_boundaries now false (some s) e).2 = s * 1000) := by
  refine ⟨?_, ?_, ?_, ?_⟩
  · intro s e
    simp [date_boundaries, COLLECTION_DELAY_MINUTES, PULL_INTERVAL_SEC]
  · simp [date_boundaries, pyTruthy, COLLECTION_DELAY_MINUTES, PULL_INTERVAL_SEC]
  · intro e he
    simp [date_boundaries, pyTruthy, he, COLLECTION_DELAY_MINUTES, PULL_INTERVAL_SEC]
  · intro s hs e
    simp [date_boundaries, pyTruthy, hs, COLLECTION_DELAY_MINUTES, PULL_INTERVAL_SEC]

/-- C5 witness: the amended theorem applied at a zero clock with a
nonzero end override and with no overrides. -/
theorem C5_witness :
    date_boundaries 0 false none (some 5) = (5 * 1000, 5 * 1000 - 15000) ∧
    date_boundaries 0 true none none = (0 * 1000 - 60000, 0 * 1000 - 60000 - 15000) :=
  ⟨(C5_window 0).2.2.1 5 (by decide), (C5_window 0).1 none none⟩

/-- C6: in tail mode the inter-cycle wait is guarded by the shared
stop flag, which `stop_event.wait` observes on entry (an already-set
flag returns immediately) and `is_set()` re-checks after the wait:
a flag raised before the wait or during it makes the loop exit
without starting a new fetch cycle, while with no flag the loop
continues. -/
theorem C6_stop_flag (t enter timeout : Nat) :
    tailCycleExits none enter timeout = false ∧
    (t ≤ enter →
      eventWaitReturn (some t) enter timeout = enter ∧
      tailCycleExits (some t) enter timeout = true) ∧
    (enter < t → t ≤ enter + timeout →
      eventWaitReturn (some t) enter timeout = t ∧
      tailCycleExits (some t) enter timeout = true) := by
  refine ⟨rfl, ?_, ?_⟩
  · intro h
    have hw : eventWaitReturn (some t) enter timeout = enter := by
      simp [eventWaitReturn, h]
    exact ⟨hw, by simp [tailCycleExits, hw, eventIsSet, h]⟩
  · intro h1 h2
    have hnle : ¬ t ≤ enter := Nat.not_le.mpr h1
    have hw : eventWaitReturn (some t) enter timeout = t := by
      simp [eventWaitReturn, hnle, Nat.min_eq_left h2]
    exact ⟨hw, by simp [tailCycleExits, hw, eventIsSet]⟩

/-- C6 witness: a flag raised at time 3, before the wait entered at
time 5, makes the wait return immediately and the loop exit. -/
theorem C6_witness :
    eventWaitReturn (some 3) 5 10 = 5 ∧ tailCycleExits (some 3) 5 10 = true :=
  (C6_stop_flag 3 5 10).2.1 (by decide)

/-- C7 counterexample.  `open(path, 'w+')` truncates: running against
a path whose file already holds `"OLD"` leaves only the run's own
write, not the pre-existing content followed by it, so pre-existing
file content is not preserved. -/
theorem C7_counterexample :
    (runOnPath (some "OLD") ["a\n"]).1.content = "a\n" ∧
    (runOnPath (some "OLD") ["a\n"]).1.content ≠ "OLD" ++ "a\n" :=
  ⟨rfl, by decide⟩

/-- C7 (amended): when the output target is a filesystem path it is
opened with truncating write (`'w+'`), so pre-existing content is
discarded and the file ends the run holding exactly the run's writes;
the byte-count summary (sink position at loop end minus position at
loop start) still equals the bytes appended during the run. -/
theorem C7_byte_accounting (existing : Option String) (writes : List String) :
    (runOnPath existing writes).1.content = concatWrites writes ∧
    (runOnPath existing writes).2 = (writes.map String.utf8ByteSize).sum := by
  obtain ⟨hc, hp⟩ := foldl_fileWrite_spec writes (openWPlus existing)
  constructor
  · simpa [runOnPath, openWPlus, fileTell] using hc
  · simpa [runOnPath, openWPlus, fileTell] using hp

/-- C9: in non-tail mode a caller-supplied start or end override equal
to 0 is treated exactly as an absent override — the rolling default
window is used — because override presence is tested by truthiness. -/
theorem C9_zero_override (now : Int) :
    date_boundaries now false (some 0) (some 0) = date_boundaries now false none none ∧
    date_boundaries now false (some 0) none = date_boundaries now false none none ∧
    date_boundaries now false none (some 0) = date_boundaries now false none none :=
  ⟨rfl, rfl, rfl⟩

/-- C10: if an exception is raised after the cursor has been extracted
from an Admin page but before record processing completes (`data`
missing, or `data` not a sequence), `get_logs` catches it, does not
increment the error counter, and still returns the already-extracted
cursor. -/
theorem C10_cursor_on_exception (sid : String) :
    get_logs EventType.admin 200
      (J.obj [("message", J.obj [("metadata", J.obj [("scroll_id", J.str sid)])])])
      = ⟨some (J.str sid), [], 0, 0⟩ ∧
    get_logs EventType.admin 200
      (J.obj [("message", J.obj [("metadata", J.obj [("scroll_id", J.str sid)]),
                                 ("data", J.num 7)])])
      = ⟨some (J.str sid), [], 0, 0⟩ :=
  ⟨rfl, rfl⟩

/-- C2: for one time window the pagination loop starts with no cursor,
feeds each returned cursor into the next request, and stops exactly
when a request yields no cursor; for a backend returning cursors
`c1, c2, none` it issues exactly three requests, carrying no cursor,
`c1`, and `c2` respectively.  A non-success status and a missing
top-level message both yield no cursor. -/
theorem C2_pagination (sts ets : Int) :
    (∀ c1 c2 : String,
      scrollWindow EventType.userAccess sts ets none
          [(200, uaPage (some c1)), (200, uaPage (some c2)), (200, uaPage none)]
        = [buildDrpc sts ets none,
           buildDrpc sts ets (some (J.str c1)),
           buildDrpc sts ets (some (J.str c2))]) ∧
    (∀ (lt : EventType) (cur : Option J) (status : Nat) (body : J) (rest : List (Nat × J)),
      (get_logs lt status body).scroll_id = none →
      scrollWindow lt sts ets cur ((status, body) :: rest) = [buildDrpc sts ets cur]) ∧
    (∀ (lt : EventType) (cur : Option J) (status : Nat) (body : J) (rest : List (Nat × J)) (c : J),
      (get_logs lt status body).scroll_id = some c →
      scrollWindow lt sts ets cur ((status, body) :: rest)
        = buildDrpc sts ets cur :: scrollWindow lt sts ets (some c) rest) ∧
    (∀ (lt : EventType) (status : Nat) (body : J), status ≠ 200 →
      (get_logs lt status body).scroll_id = none) ∧
    (∀ (lt : EventType) (kvs : List (String × J)), (∀ kv ∈ kvs, kv.1 ≠ "message") →
      (get_logs lt 200 (J.obj kvs)).scroll_id = none) ∧
    (∀ (lt : EventType) (cur : Option J) (resps : List (Nat × J)),
      (∀ r ∈ resps, (get_logs lt r.1 r.2).scroll_id ≠ none) →
      ∀ (status : Nat) (body : J) (rest : List (Nat × J)),
        (get_logs lt status body).scroll_id = none →
        (scrollWindow lt sts ets cur (resps ++ (status, body) :: rest)).length
          = resps.length + 1) := by
  refine ⟨?_, ?_, ?_, ?_, ?_, ?_⟩
  · intro c1 c2
    rfl
  · intro lt cur status body rest h
    simp [scrollWindow, h]
  · intro lt cur status body rest c h
    simp [scrollWindow, h]
  · intro lt status body h
    rw [getLogs_bad_status lt status body h]
  · intro lt kvs h
    rw [getLogs_no_message lt kvs h]
  · intro lt cur resps hall status body rest h
    exact scrollWindow_length lt sts ets resps cur hall status body rest h

/-- C2 witness: the three-request run at concrete cursors, and a
non-success response yielding no cursor. -/
theorem C2_witness :
    scrollWindow EventType.userAccess 0 1 none
        [(200, uaPage (some "a")), (200, uaPage (some "b")), (200, uaPage none)]
      = [buildDrpc 0 1 none,
         buildDrpc 0 1 (some (J.str "a")),
         buildDrpc 0 1 (some (J.str "b"))] ∧
    (get_logs EventType.userAccess 500 J.null).scroll_id = none :=
  ⟨(C2_pagination 0 1).1 "a" "b",
   (C2_pagination 0 1).2.2.2.1 EventType.userAccess 500 J.null (by decide)⟩

/-- C8: the sink is acquired exactly once, before the poll loop; every
page fetch is immediately followed by a flush; and the sink is closed
exactly once at loop exit — also when an unhandled fault strikes after
the sink was acquired — except that it is never closed when the
configured output is the inherited standard output (and a fault before
acquisition leaves nothing to close). -/
theorem C8_sink_lifecycle (cfg : OutCfg) (tail : Bool) (ws : List Nat) (fault : Option Nat) :
    (fetchLogsTrace cfg tail ws none).head? = some Ev.acquire ∧
    (fetchLogsTrace cfg tail ws none).count Ev.acquire = 1 ∧
    flushAfterFetch (fetchLogsTrace cfg tail ws none) = true ∧
    (fetchLogsTrace cfg tail ws fault).count Ev.closeOut =
      (if cfg ≠ OutCfg.stdoutStream ∧ fault ≠ some 0 then 1 else 0) := by
  refine ⟨rfl, ?_, ?_, ?_⟩
  · have h1 := (windowsTrace_counts (if tail then ws else ws.take 1)).1
    show (bodyTrace tail ws ++ finallyTrace cfg true).count Ev.acquire = 1
    rw [List.count_append, finallyTrace_count_acquire]
    simp [bodyTrace, List.count_cons, h1]
  · show flushAfterFetch
      (Ev.acquire :: (windowsTrace (if tail then ws else ws.take 1) ++ finallyTrace cfg true)) = true
    exact flushAfterFetch_windows _ _ (finallyTrace_flushAfterFetch cfg true)
  · cases fault with
    | none =>
        have h2 := (windowsTrace_counts (if tail then ws else ws.take 1)).2
        show (bodyTrace tail ws ++ finallyTrace cfg true).count Ev.closeOut =
          (if cfg ≠ OutCfg.stdoutStream ∧ (none : Option Nat) ≠ some 0 then 1 else 0)
        rw [List.count_append]
        by_cases hcfg : cfg = OutCfg.stdoutStream
        · subst hcfg
          simp [bodyTrace, List.count_cons, h2, finallyTrace]
        · simp [bodyTrace, List.count_cons, h2, finallyTrace, hcfg]
    | some n =>
        cases n with
        | zero =>
            show (([] : List Ev) ++ finallyTrace cfg (([] : List Ev).contains Ev.acquire)).count Ev.closeOut =
              (if cfg ≠ OutCfg.stdoutStream ∧ (some 0 : Option Nat) ≠ some 0 then 1 else 0)
            simp [finallyTrace]
        | succ m =>
            have hsub := (List.take_sublist m
              (windowsTrace (if tail then ws else ws.take 1))).count_le Ev.closeOut
            have h2 := (windowsTrace_counts (if tail then ws else ws.take 1)).2
            have h3 : ((windowsTrace (if tail then ws else ws.take 1)).take m).count Ev.closeOut = 0 :=
              Nat.le_zero.mp (h2 ▸ hsub)
            show ((Ev.acquire :: (windowsTrace (if tail then ws else ws.take 1)).take m)
                ++ finallyTrace cfg true).count Ev.closeOut =
              (if cfg ≠ OutCfg.stdoutStream ∧ (some (m + 1) : Option Nat) ≠ some 0 then 1 else 0)
            rw [List.count_append]
            by_cases hcfg : cfg = OutCfg.stdoutStream
            · subst hcfg
              simp [List.count_cons, h3, finallyTrace]
            · simp [List.count_cons, h3, finallyTrace, hcfg]
